import Mathlib

/-!
Shallow embedding of the gabriel-server client communication layer, in the two
variants present in the repository:

* Gabriel.Simple embeds client_comm.py: a single global token counter per
  client, a per-client result queue drained by a producer duty, and a bounded
  multiprocessing input queue feeding the engines.
* Gabriel.PerCategory embeds src/gabriel_server/websocket_server.py:
  per-filter token counters, a single dispatch duty draining engine results,
  and dynamic filter registration.

Python dictionaries are embedded as association lists with the update, delete
and lookup operations the source uses; exceptions the source can raise
(KeyError, NameError, AttributeError) are recorded in an explicit error field
of each step outcome, and logger warnings are counted. Each async loop body is
embedded as a function computing the effect of one loop iteration; schedules
are captured by a step function over an event type together with an inductive
reachability predicate. The ad hoc per-client records of the source
(SimpleNamespace in the simple variant, the record the per-category handler
attempts to build) are embedded as structures with the fields the source gives
them; the keyword-only call to collections.namedtuple at line 53 of the
per-category handler raises TypeError before any field is stored, and the
embedding records that error.
-/

namespace Gabriel

/-- Python dict lookup, d.get(k) on an association list; d[k] is the same
lookup followed by a KeyError at the call site when the result is none. -/
def lookupA {α β : Type} [DecidableEq α] (k : α) : List (α × β) → Option β
  | [] => none
  | (k2, v) :: rest => if k = k2 then some v else lookupA k rest

/-- Python dict update d[k] = v: replace the binding if the key is present,
otherwise append a new binding. -/
def setA {α β : Type} [DecidableEq α] (k : α) (v : β) : List (α × β) → List (α × β)
  | [] => [(k, v)]
  | (k2, v2) :: rest => if k = k2 then (k, v) :: rest else (k2, v2) :: setA k v rest

/-- Python dict deletion del d[k]; the caller handles the missing-key case. -/
def eraseA {α β : Type} [DecidableEq α] (k : α) : List (α × β) → List (α × β)
  | [] => []
  | (k2, v2) :: rest => if k = k2 then rest else (k2, v2) :: eraseA k rest

/-- Exceptions that the embedded Python code can raise. -/
inductive PyErr
  | keyError
  | nameError
  | attributeError
  | typeError
  deriving DecidableEq

/-- Status codes sent to clients; the union of the two enumerations the two
variants use. -/
inductive Status
  | noTokens
  | queueFull
  | requestedEngineNotAvailable
  | noEngineForFilterPassed
  | serverDroppedFrame
  deriving DecidableEq

/-- Remote endpoint of a websocket connection: host and port. -/
abbrev Address : Type := String × Int

namespace Simple

/-- Default number of tokens granted to a new client, line 11 of
client_comm.py. -/
def NUM_TOKENS : Int := 2

/-- Default capacity of the engine input queue, line 12 of client_comm.py. -/
def INPUT_QUEUE_MAXSIZE : Nat := 2

/-- Fields of gabriel_pb2.FromClient that the simple server reads; the payload
is kept abstract. -/
structure FromClient where
  engine_name : String
  frame_id : Nat
  payload : Nat
  deriving DecidableEq

/-- Fields of gabriel_pb2.ToClient.Content carried on a result queue. -/
structure Content where
  frame_id : Nat
  payload : Nat
  deriving DecidableEq

/-- gabriel_pb2.ToFromEngine: the envelope submitted to the engine transport,
built at lines 73 to 76 of client_comm.py. -/
structure Envelope where
  host : String
  port : Int
  from_client : FromClient
  deriving DecidableEq

/-- Messages the simple server sends to a client; the helper _send writes the
current token count into every outgoing message. -/
inductive Msg
  | errorReply (frame_id : Nat) (status : Status) (num_tokens : Int)
  | result (content : Content) (num_tokens : Int)
  deriving DecidableEq

/-- The SimpleNamespace record created per client at lines 118 to 120. -/
structure Client where
  result_queue : List Content
  tokens : Int
  deriving DecidableEq

/-- State of WebsocketServer in client_comm.py. The field available_engines
mirrors the set created in the constructor at line 61; no method of the class
ever reads or writes it. -/
structure Server where
  input_queue : List Envelope
  max_size : Nat
  available_engines : List String
  num_tokens : Int
  clients : List (Address × Client)
  deriving DecidableEq

/-- WebsocketServer.__init__ (lines 55 to 64). -/
def Server.init (input_queue_maxsize : Nat) (num_tokens : Int) : Server :=
  { input_queue := [], max_size := input_queue_maxsize, available_engines := [],
    num_tokens := num_tokens, clients := [] }

/-- Result of one atomic step of the simple server: the new state, the
messages sent to the stepped client, the exception raised if any, and the
number of logger warnings emitted during the step. -/
structure Outcome where
  state : Server
  outputs : List Msg
  error : Option PyErr
  warns : Nat
  deriving DecidableEq

/-- Python equality between a str and a host-port tuple is always False; this
models the comparison underlying the membership test at line 78. -/
def strEqAddress (_ : String) (_ : Address) : Bool := false

/-- The test from_client.engine_name in self.clients at line 78; self.clients
is the registry keyed by remote addresses, so the engine name, a string, is
compared against address tuples. -/
def engineInClients (engine_name : String) (clients : List (Address × Client)) : Bool :=
  clients.any (fun p => strEqAddress engine_name p.1)

/-- multiprocessing.Queue.put_nowait raises queue.Full exactly when a positive
maxsize has been reached. -/
def isFull (max_size : Nat) (q : List Envelope) : Bool :=
  0 < max_size && max_size ≤ q.length

/-- Lines 79 to 92 of client_comm.py: decrement the counter, then put_nowait
the serialized envelope on the input queue; when the queue is full the
except-clause restores the counter and sends a QUEUE_FULL reply carrying the
restored count (with one logger warning). -/
def submitBlock (s : Server) (a : Address) (c : Client) (f : FromClient) : Outcome :=
  let t1 : Int := c.tokens - 1
  let env : Envelope := { host := a.1, port := a.2, from_client := f }
  if isFull s.max_size s.input_queue then
    let c2 : Client := { c with tokens := t1 + 1 }
    { state := { s with clients := setA a c2 s.clients },
      outputs := [Msg.errorReply f.frame_id Status.queueFull (t1 + 1)],
      error := none, warns := 1 }
  else
    let c2 : Client := { c with tokens := t1 }
    { state := { s with clients := setA a c2 s.clients, input_queue := s.input_queue ++ [env] },
      outputs := [], error := none, warns := 0 }

/-- Lines 72 to 92, the try block of consumer_handler: build the envelope,
test the engine name against self.clients, and either submit or send a
REQUESTED_ENGINE_NOT_AVAILABLE reply (with one logger warning). -/
def tryBlock (s : Server) (a : Address) (c : Client) (f : FromClient) : Outcome :=
  if engineInClients f.engine_name s.clients then
    submitBlock s a c f
  else
    { state := s,
      outputs := [Msg.errorReply f.frame_id Status.requestedEngineNotAvailable c.tokens],
      error := none, warns := 1 }

/-- One iteration of WebsocketServer.consumer_handler (lines 66 to 95) for the
client at the given address. The running duty holds the client record that the
registry maps the address to; it is recovered here by lookup, and the event is
a no-op when the address is not registered because no duty is then running. -/
def consumer_handler (s : Server) (a : Address) (f : FromClient) : Outcome :=
  match lookupA a s.clients with
  | none => { state := s, outputs := [], error := none, warns := 0 }
  | some c =>
    if c.tokens > 0 then
      tryBlock s a c f
    else
      { state := s, outputs := [Msg.errorReply f.frame_id Status.noTokens c.tokens],
        error := none, warns := 0 }

/-- One iteration of WebsocketServer.producer_handler (lines 97 to 109): it
fires when the result queue of the client is nonempty, refunds one token, and
sends the dequeued result with the new count. -/
def producer_handler (s : Server) (a : Address) : Outcome :=
  match lookupA a s.clients with
  | none => { state := s, outputs := [], error := none, warns := 0 }
  | some c =>
    match c.result_queue with
    | [] => { state := s, outputs := [], error := none, warns := 0 }
    | r :: rest =>
      let t2 : Int := c.tokens + 1
      { state := { s with
          clients := setA a ({ c with result_queue := rest, tokens := t2 }) s.clients },
        outputs := [Msg.result r t2], error := none, warns := 0 }

/-- WebsocketServer.queue_result (lines 142 to 147). For an unknown address,
self.clients.get(address) returns None and the attribute access .result_queue
raises AttributeError before the None test on the following line can run; for
a registered client the queue object is never None, so the result is put on
its result queue. -/
def queue_result (s : Server) (r : Content) (a : Address) : Outcome :=
  match lookupA a s.clients with
  | none => { state := s, outputs := [], error := some PyErr.attributeError, warns := 0 }
  | some c =>
    { state := { s with
        clients := setA a ({ c with result_queue := c.result_queue ++ [r] }) s.clients },
      outputs := [], error := none, warns := 0 }

/-- Registration part of WebsocketServer.handler (lines 111 to 121): a fresh
record with an empty result queue and num_tokens tokens is stored with
self.clients[address] = client, overwriting any existing entry at the same
address; no duplicate check is made and nothing is sent to the client. -/
def handler_connect (s : Server) (a : Address) : Outcome :=
  { state := { s with
      clients := setA a ({ result_queue := [], tokens := s.num_tokens }) s.clients },
    outputs := [], error := none, warns := 0 }

/-- Teardown part of WebsocketServer.handler (line 134): del
self.clients[address], which raises KeyError when the key is absent. -/
def handler_teardown (s : Server) (a : Address) : Outcome :=
  match lookupA a s.clients with
  | none => { state := s, outputs := [], error := some PyErr.keyError, warns := 0 }
  | some _ =>
    { state := { s with clients := eraseA a s.clients },
      outputs := [], error := none, warns := 0 }

/-- Events of the simple model: one connection registration, one received
frame, one producer iteration, one dispatched engine result, one teardown. -/
inductive Event
  | connect (a : Address)
  | frame (a : Address) (f : FromClient)
  | deliver (a : Address)
  | dispatch (r : Content) (a : Address)
  | disconnect (a : Address)
  deriving DecidableEq

/-- One atomic scheduler step of the simple server. -/
def step (s : Server) : Event → Outcome
  | Event.connect a => handler_connect s a
  | Event.frame a f => consumer_handler s a f
  | Event.deliver a => producer_handler s a
  | Event.dispatch r a => queue_result s r a
  | Event.disconnect a => handler_teardown s a

/-- States reachable from a freshly constructed simple server under any
schedule of events. -/
inductive Reach (m : Nat) (n : Int) : Server → Prop
  | init : Reach m n (Server.init m n)
  | next (s : Server) (e : Event) : Reach m n s → Reach m n (step s e).state

/-- Run a list of events from a state, collecting all outputs in order. -/
def run (s : Server) (es : List Event) : Server × List Msg :=
  es.foldl (fun acc e =>
    let o := step acc.1 e
    (o.state, acc.2 ++ o.outputs)) (s, [])

/-- Every token counter in the registry is nonnegative. -/
def tokensNonneg (s : Server) : Prop :=
  ∀ p ∈ s.clients, 0 ≤ p.2.tokens

/-- Invariant carried through the reachability induction. -/
def Inv (s : Server) : Prop := 0 ≤ s.num_tokens ∧ tokensNonneg s

end Simple

namespace PerCategory

/-- Fields of gabriel_pb2.FromClient that the per-category server reads. -/
structure FromClient where
  filter_passed : String
  frame_id : Nat
  payload : Nat
  deriving DecidableEq

/-- Fields of the result wrapper produced by an engine. -/
structure ResultWrapper where
  filter_passed : String
  frame_id : Nat
  payload : Nat
  deriving DecidableEq

/-- gabriel_pb2.ToEngine: the envelope handed to _send_to_engine, built at
lines 87 to 90 of websocket_server.py. -/
structure ToEngine where
  host : String
  port : Int
  from_client : FromClient
  deriving DecidableEq

/-- gabriel_pb2.FromEngine: one engine result received by the dispatch duty. -/
structure FromEngine where
  host : String
  port : Int
  result_wrapper : ResultWrapper
  deriving DecidableEq

/-- Messages the per-category server sends to a client. -/
inductive Msg
  | welcome (filters_consumed : List String) (num_tokens_per_filter : Int)
  | errorReply (frame_id : Nat) (status : Status)
  | result (rw : ResultWrapper)
  deriving DecidableEq

/-- Whether a message is the welcome message. -/
def Msg.is_welcome : Msg → Bool
  | Msg.welcome _ _ => true
  | _ => false

/-- The per-client record built in _handler: the token ledger mapping each
filter name to a counter. The websocket handle it also stores is implicit in
the address key of the registry. -/
structure Client where
  tokens_for_filter : List (String × Int)
  deriving DecidableEq

/-- State of WebsocketServer in websocket_server.py, fields in constructor
order (lines 29 to 35). -/
structure Server where
  port : Int
  num_tokens_per_filter : Int
  message_max_size : Option Nat
  clients : List (Address × Client)
  filters_consumed : List String
  deriving DecidableEq

/-- WebsocketServer.__init__ (lines 29 to 35). -/
def Server.init (port : Int) (num_tokens_per_filter : Int)
    (message_max_size : Option Nat) : Server :=
  { port := port, num_tokens_per_filter := num_tokens_per_filter,
    message_max_size := message_max_size, clients := [], filters_consumed := [] }

/-- Result of one atomic step of the per-category server: the new state, the
messages sent, the envelope handed to the engine transport if any, the
exception raised if any, and the number of logger warnings emitted. -/
structure Outcome where
  state : Server
  outputs : List Msg
  submitted : Option ToEngine
  error : Option PyErr
  warns : Nat
  deriving DecidableEq

/-- Entry of WebsocketServer._handler (lines 49 to 57): the session record is
built with a keyword-only call to collections.namedtuple at line 53, which
raises TypeError, since namedtuple requires a positional typename and field
list, before the registry assignment at line 57 and the welcome send at line
65 can run; the registry is untouched and nothing is sent to the client. -/
def handler_connect (s : Server) (_a : Address) : Outcome :=
  { state := s, outputs := [], submitted := none,
    error := some PyErr.typeError, warns := 0 }

/-- Lines 53 to 65 of _handler as they read: a record holding one counter per
currently consumed filter, each set to num_tokens_per_filter, stored with
self._clients[address] = client (overwriting any existing entry at the same
address, with no duplicate check), followed by the welcome message listing
the current filters_consumed and num_tokens_per_filter. The record
construction at line 53 raises before this code can run; it is embedded as a
separate step so that the reachability analysis also covers the
client-bearing states these lines would create, a superset of the states the
program reaches. -/
def register_client (s : Server) (a : Address) : Outcome :=
  let c : Client :=
    { tokens_for_filter := s.filters_consumed.map (fun f => (f, s.num_tokens_per_filter)) }
  { state := { s with clients := setA a c s.clients },
    outputs := [Msg.welcome s.filters_consumed s.num_tokens_per_filter],
    submitted := none, error := none, warns := 0 }

/-- Teardown part of WebsocketServer._handler (line 70): del
self._clients[address], raising KeyError when the key is absent. -/
def handler_teardown (s : Server) (a : Address) : Outcome :=
  match lookupA a s.clients with
  | none =>
    { state := s, outputs := [], submitted := none,
      error := some PyErr.keyError, warns := 0 }
  | some _ =>
    { state := { s with clients := eraseA a s.clients },
      outputs := [], submitted := none, error := none, warns := 0 }

/-- One iteration of WebsocketServer._consumer (lines 82 to 118) for the
client at the given address; send_ok is the value returned by the abstract
_send_to_engine. The filter test comes first; then the token test, where the
dict subscript raises KeyError if the ledger has no counter for the filter;
the envelope is handed to the transport before the counter test of the
outcome, and the counter is decremented only after a successful send. -/
def consumer (s : Server) (a : Address) (f : FromClient) (send_ok : Bool) : Outcome :=
  match lookupA a s.clients with
  | none =>
    { state := s, outputs := [], submitted := none, error := none, warns := 0 }
  | some c =>
    let env : ToEngine := { host := a.1, port := a.2, from_client := f }
    if s.filters_consumed.contains f.filter_passed = false then
      { state := s, outputs := [Msg.errorReply f.frame_id Status.noEngineForFilterPassed],
        submitted := none, error := none, warns := 0 }
    else
      match lookupA f.filter_passed c.tokens_for_filter with
      | none =>
        { state := s, outputs := [], submitted := none,
          error := some PyErr.keyError, warns := 0 }
      | some t =>
        if t < 1 then
          { state := s, outputs := [Msg.errorReply f.frame_id Status.noTokens],
            submitted := none, error := none, warns := 0 }
        else if send_ok = false then
          { state := s, outputs := [Msg.errorReply f.frame_id Status.serverDroppedFrame],
            submitted := some env, error := none, warns := 0 }
        else
          let c2 : Client :=
            { tokens_for_filter := setA f.filter_passed (t - 1) c.tokens_for_filter }
          { state := { s with clients := setA a c2 s.clients },
            outputs := [], submitted := some env, error := none, warns := 0 }

/-- One iteration of WebsocketServer._producer (lines 122 to 140): look the
origin address up with .get, log one warning and drop the result when no
client is found; otherwise refund one token to the counter named by the
result, where the dict subscript raises KeyError if that counter is absent,
and send the result to the client. -/
def producer (s : Server) (fe : FromEngine) : Outcome :=
  let a : Address := (fe.host, fe.port)
  match lookupA a s.clients with
  | none =>
    { state := s, outputs := [], submitted := none, error := none, warns := 1 }
  | some c =>
    let rw := fe.result_wrapper
    match lookupA rw.filter_passed c.tokens_for_filter with
    | none =>
      { state := s, outputs := [], submitted := none,
        error := some PyErr.keyError, warns := 0 }
    | some t =>
      let c2 : Client :=
        { tokens_for_filter := setA rw.filter_passed (t + 1) c.tokens_for_filter }
      { state := { s with clients := setA a c2 s.clients },
        outputs := [Msg.result rw], submitted := none, error := none, warns := 0 }

/-- WebsocketServer.add_filter_consumed (lines 149 to 160): return at once if
the filter is already consumed; otherwise the filter is added to
self._filters_consumed, and then the loop header for client in clients raises
NameError because the name clients is not defined anywhere, so no client
ledger is touched. -/
def add_filter_consumed (s : Server) (filter_name : String) : Outcome :=
  if s.filters_consumed.contains filter_name then
    { state := s, outputs := [], submitted := none, error := none, warns := 0 }
  else
    { state := { s with filters_consumed := s.filters_consumed ++ [filter_name] },
      outputs := [], submitted := none, error := some PyErr.nameError, warns := 0 }

/-- WebsocketServer.remove_filter_consumed (lines 162 to 173): return at once
if the filter is not consumed; otherwise the filter is removed from
self._filters_consumed, and then the loop header raises NameError as above, so
no client ledger is touched. -/
def remove_filter_consumed (s : Server) (filter_name : String) : Outcome :=
  if s.filters_consumed.contains filter_name = false then
    { state := s, outputs := [], submitted := none, error := none, warns := 0 }
  else
    { state := { s with filters_consumed := s.filters_consumed.erase filter_name },
      outputs := [], submitted := none, error := some PyErr.nameError, warns := 0 }

/-- Events of the per-category model. The register event runs the
registration and welcome block on its own, so reachability also covers the
client-bearing states the handler would create without the line-53 slip. -/
inductive Event
  | connect (a : Address)
  | register (a : Address)
  | frame (a : Address) (f : FromClient) (send_ok : Bool)
  | produce (fe : FromEngine)
  | addFilter (filter_name : String)
  | removeFilter (filter_name : String)
  | disconnect (a : Address)
  deriving DecidableEq

/-- One atomic scheduler step of the per-category server. -/
def step (s : Server) : Event → Outcome
  | Event.connect a => handler_connect s a
  | Event.register a => register_client s a
  | Event.frame a f send_ok => consumer s a f send_ok
  | Event.produce fe => producer s fe
  | Event.addFilter g => add_filter_consumed s g
  | Event.removeFilter g => remove_filter_consumed s g
  | Event.disconnect a => handler_teardown s a

/-- States reachable from a freshly constructed per-category server under any
schedule of events. -/
inductive Reach (p : Int) (n : Int) (mms : Option Nat) : Server → Prop
  | init : Reach p n mms (Server.init p n mms)
  | next (s : Server) (e : Event) : Reach p n mms s → Reach p n mms (step s e).state

/-- Every counter of every ledger in the registry is nonnegative. -/
def ledgersNonneg (s : Server) : Prop :=
  ∀ p ∈ s.clients, ∀ q ∈ p.2.tokens_for_filter, 0 ≤ q.2

/-- Invariant carried through the reachability induction. -/
def Inv (s : Server) : Prop := 0 ≤ s.num_tokens_per_filter ∧ ledgersNonneg s

end PerCategory

/-! Concrete states and inputs used by the closed theorems and witnesses. -/

/-- A sample client address. -/
def aW : Address := ("10.0.0.7", 9901)

/-- A second, distinct client address. -/
def bW : Address := ("10.0.0.8", 9902)

/-- A per-category client holding two tokens for the filter face. -/
def pcClientW : PerCategory.Client := ⟨[("face", 2)]⟩

/-- A per-category server with one registered filter and one client. -/
def pcServerW : PerCategory.Server := ⟨9098, 2, none, [(aW, pcClientW)], ["face"]⟩

/-- A frame for the registered filter face. -/
def pcFrameW : PerCategory.FromClient := ⟨"face", 5, 0⟩

/-- A sample envelope occupying a slot of the simple input queue. -/
def envW : Simple.Envelope := ⟨"10.0.0.7", 9901, ⟨"face", 1, 0⟩⟩

/-- A simple client with the default two tokens. -/
def sClientW : Simple.Client := ⟨[], 2⟩

/-- A simple server whose input queue is full (two items, capacity two). -/
def sServerFullW : Simple.Server := ⟨[envW, envW], 2, [], 2, [(aW, sClientW)]⟩

/-- A sample frame for the simple server. -/
def sFrameW : Simple.FromClient := ⟨"face", 6, 0⟩

/-- A simple server registering only the address bW. -/
def sServerC3 : Simple.Server := ⟨[], 2, [], 2, [(bW, ⟨[], 2⟩)]⟩

/-- A sample result content. -/
def contentC3 : Simple.Content := ⟨3, 0⟩

/-- A per-category server registering only the address bW. -/
def pcServerC3 : PerCategory.Server := ⟨9098, 2, none, [(bW, ⟨[("face", 2)]⟩)], ["face"]⟩

/-- An engine result addressed to aW, which pcServerC3 does not register. -/
def feC3 : PerCategory.FromEngine := ⟨"10.0.0.7", 9901, ⟨"face", 3, 0⟩⟩

/-- A simple server whose only client has zero tokens and whose registered
engine set is empty. -/
def sServerC4 : Simple.Server := ⟨[], 2, [], 2, [(aW, ⟨[], 0⟩)]⟩

/-- A simple server with one registered engine name and a client with tokens. -/
def sServerC4w : Simple.Server := ⟨[], 2, ["face"], 2, [(aW, ⟨[], 2⟩)]⟩

/-- A fresh simple server whose intended available engine set holds face. -/
def sServerC5 : Simple.Server := ⟨[], 2, ["face"], 2, []⟩

/-- A simple server whose only client at aW holds five tokens, distinguishing
it from a freshly allotted client. -/
def sServerC6 : Simple.Server := ⟨[], 2, [], 2, [(aW, ⟨[], 5⟩)]⟩

/-- A per-category server with one client whose ledger covers the one
registered filter. -/
def pcServerC7 : PerCategory.Server := ⟨9098, 2, none, [(aW, ⟨[("face", 2)]⟩)], ["face"]⟩

/-- A simple server with a single registered client. -/
def sServerC8 : Simple.Server := ⟨[], 2, [], 2, [(aW, ⟨[], 2⟩)]⟩

/-- A per-category server with a single registered client. -/
def pcServerC8 : PerCategory.Server := ⟨9098, 2, none, [(bW, ⟨[("face", 2)]⟩)], ["face"]⟩

/-- An engine result for the client of pcServerW, tagged with the registered
filter face. -/
def feW : PerCategory.FromEngine := ⟨"10.0.0.7", 9901, ⟨"face", 9, 0⟩⟩

/-! Statement forms of the claims, stated over the embedded operations. -/

/-- Conclusion of claim C1: every counter of every reachable state of either
model is nonnegative, and a frame arriving while the relevant counter is zero
is answered with NO_TOKENS, leaves the state unchanged, and submits nothing. -/
def claim1Prop (m : Nat) (n : Int) : Prop :=
  (∀ s, Simple.Reach m n s → Simple.tokensNonneg s) ∧
  (∀ (pt : Int) (mms : Option Nat) (s : PerCategory.Server),
    PerCategory.Reach pt n mms s → PerCategory.ledgersNonneg s) ∧
  (∀ (s : Simple.Server) (a : Address) (c : Simple.Client) (f : Simple.FromClient),
    lookupA a s.clients = some c → c.tokens = 0 →
    (Simple.step s (Simple.Event.frame a f)).state = s ∧
    (Simple.step s (Simple.Event.frame a f)).outputs
      = [Simple.Msg.errorReply f.frame_id Status.noTokens c.tokens]) ∧
  (∀ (s : PerCategory.Server) (a : Address) (c : PerCategory.Client)
      (f : PerCategory.FromClient) (send_ok : Bool),
    lookupA a s.clients = some c →
    s.filters_consumed.contains f.filter_passed = true →
    lookupA f.filter_passed c.tokens_for_filter = some 0 →
    (PerCategory.step s (PerCategory.Event.frame a f send_ok)).state = s ∧
    (PerCategory.step s (PerCategory.Event.frame a f send_ok)).outputs
      = [PerCategory.Msg.errorReply f.frame_id Status.noTokens] ∧
    (PerCategory.step s (PerCategory.Event.frame a f send_ok)).submitted = none)

/-- Conclusion of claim C2 for the per-category consumer when _send_to_engine
reports failure: the state, hence every counter, is unchanged, and the only
reply is SERVER_DROPPED_FRAME. -/
def claim2PCConcl (s : PerCategory.Server) (a : Address)
    (f : PerCategory.FromClient) : Prop :=
  (PerCategory.step s (PerCategory.Event.frame a f false)).state = s ∧
  (PerCategory.step s (PerCategory.Event.frame a f false)).outputs
    = [PerCategory.Msg.errorReply f.frame_id Status.serverDroppedFrame] ∧
  (PerCategory.step s (PerCategory.Event.frame a f false)).error = none

/-- Conclusion of claim C2 for the simple submit block when the input queue is
full: a QUEUE_FULL reply carrying the unchanged count, the registered token
count equal to its value before the attempt, and an unchanged input queue. -/
def claim2SimpleConcl (s : Simple.Server) (a : Address) (c : Simple.Client)
    (f : Simple.FromClient) : Prop :=
  (Simple.submitBlock s a c f).outputs
    = [Simple.Msg.errorReply f.frame_id Status.queueFull c.tokens] ∧
  lookupA a (Simple.submitBlock s a c f).state.clients
    = some { result_queue := c.result_queue, tokens := c.tokens } ∧
  (Simple.submitBlock s a c f).state.input_queue = s.input_queue

/-- Conclusion of claim C4 (amended) for the per-category consumer on a frame
whose filter is not registered: NO_ENGINE_FOR_FILTER_PASSED reply, no
submission, state unchanged. -/
def claim4PCConcl (s : PerCategory.Server) (a : Address)
    (f : PerCategory.FromClient) (send_ok : Bool) : Prop :=
  (PerCategory.step s (PerCategory.Event.frame a f send_ok)).state = s ∧
  (PerCategory.step s (PerCategory.Event.frame a f send_ok)).outputs
    = [PerCategory.Msg.errorReply f.frame_id Status.noEngineForFilterPassed] ∧
  (PerCategory.step s (PerCategory.Event.frame a f send_ok)).submitted = none

/-- Conclusion of claim C4 (amended) for the simple consumer on any frame from
a client holding at least one token: REQUESTED_ENGINE_NOT_AVAILABLE reply and
state unchanged, because the membership test at line 78 compares the engine
name against address keys and never succeeds. -/
def claim4SimpleConcl (s : Simple.Server) (a : Address) (c : Simple.Client)
    (f : Simple.FromClient) : Prop :=
  (Simple.step s (Simple.Event.frame a f)).state = s ∧
  (Simple.step s (Simple.Event.frame a f)).outputs
    = [Simple.Msg.errorReply f.frame_id Status.requestedEngineNotAvailable c.tokens]

/-- Conclusion of claim C8 (amended), first teardown with the identity
present: no exception, the entry is removed, and a second teardown for the
same identity raises KeyError and changes nothing. -/
def claim8SimpleRemoved (s : Simple.Server) (a : Address) : Prop :=
  (Simple.step s (Simple.Event.disconnect a)).error = none ∧
  lookupA a (Simple.step s (Simple.Event.disconnect a)).state.clients = none ∧
  (Simple.step (Simple.step s (Simple.Event.disconnect a)).state
      (Simple.Event.disconnect a)).error = some PyErr.keyError ∧
  (Simple.step (Simple.step s (Simple.Event.disconnect a)).state
      (Simple.Event.disconnect a)).state
    = (Simple.step s (Simple.Event.disconnect a)).state

/-- Conclusion of claim C8 (amended), teardown with the identity absent in the
simple model: KeyError and an unchanged state. -/
def claim8SimpleMissing (s : Simple.Server) (a : Address) : Prop :=
  (Simple.step s (Simple.Event.disconnect a)).error = some PyErr.keyError ∧
  (Simple.step s (Simple.Event.disconnect a)).state = s

/-- Conclusion of claim C8 (amended) for the per-category model, identity
present. -/
def claim8PCRemoved (s : PerCategory.Server) (a : Address) : Prop :=
  (PerCategory.step s (PerCategory.Event.disconnect a)).error = none ∧
  lookupA a (PerCategory.step s (PerCategory.Event.disconnect a)).state.clients = none ∧
  (PerCategory.step (PerCategory.step s (PerCategory.Event.disconnect a)).state
      (PerCategory.Event.disconnect a)).error = some PyErr.keyError ∧
  (PerCategory.step (PerCategory.step s (PerCategory.Event.disconnect a)).state
      (PerCategory.Event.disconnect a)).state
    = (PerCategory.step s (PerCategory.Event.disconnect a)).state

/-- Conclusion of claim C8 (amended) for the per-category model, identity
absent. -/
def claim8PCMissing (s : PerCategory.Server) (a : Address) : Prop :=
  (PerCategory.step s (PerCategory.Event.disconnect a)).error = some PyErr.keyError ∧
  (PerCategory.step s (PerCategory.Event.disconnect a)).state = s

/-- Conclusion of claim C10 when the ledger of the looked-up client has a
counter for the filter of the result: the refund succeeds, incrementing
exactly that counter by one and leaving every other counter and every other
client unchanged, and the result is sent. -/
def claim10OkConcl (s : PerCategory.Server) (fe : PerCategory.FromEngine)
    (c : PerCategory.Client) (t : Int) : Prop :=
  (PerCategory.step s (PerCategory.Event.produce fe)).error = none ∧
  (∃ c2, lookupA (fe.host, fe.port)
        (PerCategory.step s (PerCategory.Event.produce fe)).state.clients = some c2 ∧
    lookupA fe.result_wrapper.filter_passed c2.tokens_for_filter = some (t + 1) ∧
    (∀ g, g ≠ fe.result_wrapper.filter_passed →
      lookupA g c2.tokens_for_filter = lookupA g c.tokens_for_filter)) ∧
  (∀ a2, a2 ≠ (fe.host, fe.port) →
    lookupA a2 (PerCategory.step s (PerCategory.Event.produce fe)).state.clients
      = lookupA a2 s.clients) ∧
  (PerCategory.step s (PerCategory.Event.produce fe)).outputs
    = [PerCategory.Msg.result fe.result_wrapper]

/-- Conclusion of claim C10 when that counter is absent: the dict subscript
raises KeyError, nothing is sent, no warning is logged, and the state is
unchanged; the result is not silently discarded. -/
def claim10MissingConcl (s : PerCategory.Server) (fe : PerCategory.FromEngine) : Prop :=
  (PerCategory.step s (PerCategory.Event.produce fe)).error = some PyErr.keyError ∧
  (PerCategory.step s (PerCategory.Event.produce fe)).state = s ∧
  (PerCategory.step s (PerCategory.Event.produce fe)).outputs = [] ∧
  (PerCategory.step s (PerCategory.Event.produce fe)).warns = 0

theorem mem_setA {α β : Type} [DecidableEq α] (k : α) (v : β) :
    ∀ (l : List (α × β)) (p : α × β), p ∈ setA k v l → p = (k, v) ∨ p ∈ l := by
  intro l
  induction l with
  | nil =>
      intro p hp
      simp only [setA, List.mem_singleton] at hp
      exact Or.inl hp
  | cons q rest ih =>
      obtain ⟨k2, v2⟩ := q
      intro p hp
      by_cases hk : k = k2
      · rw [setA, if_pos hk] at hp
        rcases List.mem_cons.mp hp with h | h
        · exact Or.inl h
        · exact Or.inr (List.mem_cons_of_mem _ h)
      · rw [setA, if_neg hk] at hp
        rcases List.mem_cons.mp hp with h | h
        · exact Or.inr (h ▸ List.mem_cons_self _ _)
        · rcases ih p h with h2 | h2
          · exact Or.inl h2
          · exact Or.inr (List.mem_cons_of_mem _ h2)

theorem mem_eraseA {α β : Type} [DecidableEq α] (k : α) :
    ∀ (l : List (α × β)) (p : α × β), p ∈ eraseA k l → p ∈ l := by
  intro l
  induction l with
  | nil => intro p hp; simp [eraseA] at hp
  | cons q rest ih =>
      obtain ⟨k2, v2⟩ := q
      intro p hp
      by_cases hk : k = k2
      · rw [eraseA, if_pos hk] at hp
        exact List.mem_cons_of_mem _ hp
      · rw [eraseA, if_neg hk] at hp
        rcases List.mem_cons.mp hp with h | h
        · exact h ▸ List.mem_cons_self _ _
        · exact List.mem_cons_of_mem _ (ih p h)

theorem lookupA_mem {α β : Type} [DecidableEq α] (k : α) :
    ∀ (l : List (α × β)) (v : β), lookupA k l = some v → (k, v) ∈ l := by
  intro l
  induction l with
  | nil => intro v hv; simp [lookupA] at hv
  | cons q rest ih =>
      obtain ⟨k2, v2⟩ := q
      intro v hv
      by_cases hk : k = k2
      · rw [lookupA, if_pos hk] at hv
        subst hk
        obtain rfl : v2 = v := Option.some.inj hv
        exact List.mem_cons_self _ _
      · rw [lookupA, if_neg hk] at hv
        exact List.mem_cons_of_mem _ (ih v hv)

theorem lookupA_setA_self {α β : Type} [DecidableEq α] (k : α) (v : β) :
    ∀ l : List (α × β), lookupA k (setA k v l) = some v := by
  intro l
  induction l with
  | nil => simp [setA, lookupA]
  | cons q rest ih =>
      obtain ⟨k2, v2⟩ := q
      by_cases hk : k = k2
      · rw [setA, if_pos hk, lookupA, if_pos rfl]
      · rw [setA, if_neg hk, lookupA, if_neg hk]
        exact ih

theorem lookupA_setA_ne {α β : Type} [DecidableEq α] (k k2 : α) (v : β)
    (hne : k2 ≠ k) : ∀ l : List (α × β), lookupA k2 (setA k v l) = lookupA k2 l := by
  intro l
  induction l with
  | nil => simp [setA, lookupA, if_neg hne]
  | cons q rest ih =>
      obtain ⟨k3, v3⟩ := q
      by_cases hk : k = k3
      · rw [setA, if_pos hk, lookupA, lookupA, if_neg (hk ▸ hne), if_neg (hk ▸ hne)]
      · rw [setA, if_neg hk]
        by_cases hk2 : k2 = k3
        · rw [lookupA, if_pos hk2, lookupA, if_pos hk2]
        · rw [lookupA, if_neg hk2, lookupA, if_neg hk2]
          exact ih

theorem lookupA_eq_none_of_not_key {α β : Type} [DecidableEq α] (k : α) :
    ∀ l : List (α × β), k ∉ l.map Prod.fst → lookupA k l = none := by
  intro l
  induction l with
  | nil => intro _; rfl
  | cons q rest ih =>
      obtain ⟨k2, v2⟩ := q
      intro hk
      simp only [List.map_cons, List.mem_cons] at hk
      push_neg at hk
      rw [lookupA, if_neg hk.1]
      exact ih hk.2

theorem lookupA_eraseA_self {α β : Type} [DecidableEq α] (k : α) :
    ∀ l : List (α × β), (l.map Prod.fst).Nodup → lookupA k (eraseA k l) = none := by
  intro l
  induction l with
  | nil => intro _; rfl
  | cons q rest ih =>
      obtain ⟨k2, v2⟩ := q
      intro hnd
      simp only [List.map_cons, List.nodup_cons] at hnd
      by_cases hk : k = k2
      · rw [eraseA, if_pos hk]
        exact lookupA_eq_none_of_not_key k rest (hk ▸ hnd.1)
      · rw [eraseA, if_neg hk, lookupA, if_neg hk]
        exact ih hnd.2

theorem engineInClients_false (n : String) (l : List (Address × Simple.Client)) :
    Simple.engineInClients n l = false := by
  simp [Simple.engineInClients, Simple.strEqAddress]

theorem simple_inv_preserved (s : Simple.Server) (e : Simple.Event)
    (h : Simple.Inv s) : Simple.Inv (Simple.step s e).state := by
  simp only [Simple.Inv, Simple.tokensNonneg] at h ⊢
  obtain ⟨hn, hc⟩ := h
  cases e with
  | connect a =>
      simp only [Simple.step, Simple.handler_connect]
      refine ⟨hn, ?_⟩
      intro p hp
      rcases mem_setA _ _ _ _ hp with rfl | hmem
      · exact hn
      · exact hc p hmem
  | frame a f =>
      cases hl : lookupA a s.clients with
      | none => simp only [Simple.step, Simple.consumer_handler, hl]; exact ⟨hn, hc⟩
      | some c =>
        by_cases ht : c.tokens > 0
        · simp only [Simple.step, Simple.consumer_handler, hl, ht, if_true,
            Simple.tryBlock, engineInClients_false, Bool.false_eq_true, if_false]
          exact ⟨hn, hc⟩
        · simp only [Simple.step, Simple.consumer_handler, hl, ht, if_false]
          exact ⟨hn, hc⟩
  | deliver a =>
      cases hl : lookupA a s.clients with
      | none => simp only [Simple.step, Simple.producer_handler, hl]; exact ⟨hn, hc⟩
      | some c =>
        cases hq : c.result_queue with
        | nil =>
            simp only [Simple.step, Simple.producer_handler, hl, hq]
            exact ⟨hn, hc⟩
        | cons r rest =>
            simp only [Simple.step, Simple.producer_handler, hl, hq]
            refine ⟨hn, ?_⟩
            intro p hp
            rcases mem_setA _ _ _ _ hp with rfl | hmem
            · have h0 : 0 ≤ c.tokens := hc (a, c) (lookupA_mem a s.clients c hl)
              simp only
              omega
            · exact hc p hmem
  | dispatch r a =>
      cases hl : lookupA a s.clients with
      | none => simp only [Simple.step, Simple.queue_result, hl]; exact ⟨hn, hc⟩
      | some c =>
        simp only [Simple.step, Simple.queue_result, hl]
        refine ⟨hn, ?_⟩
        intro p hp
        rcases mem_setA _ _ _ _ hp with rfl | hmem
        · exact hc (a, c) (lookupA_mem a s.clients c hl)
        · exact hc p hmem
  | disconnect a =>
      cases hl : lookupA a s.clients with
      | none => simp only [Simple.step, Simple.handler_teardown, hl]; exact ⟨hn, hc⟩
      | some c =>
        simp only [Simple.step, Simple.handler_teardown, hl]
        exact ⟨hn, fun p hp => hc p (mem_eraseA a s.clients p hp)⟩

theorem percat_inv_preserved (s : PerCategory.Server) (e : PerCategory.Event)
    (h : PerCategory.Inv s) : PerCategory.Inv (PerCategory.step s e).state := by
  simp only [PerCategory.Inv, PerCategory.ledgersNonneg] at h ⊢
  obtain ⟨hn, hc⟩ := h
  cases e with
  | connect a =>
      simp only [PerCategory.step, PerCategory.handler_connect]
      exact ⟨hn, hc⟩
  | register a =>
      simp only [PerCategory.step, PerCategory.register_client]
      refine ⟨hn, ?_⟩
      intro p hp
      rcases mem_setA _ _ _ _ hp with rfl | hmem
      · intro q hq
        simp only [List.mem_map] at hq
        obtain ⟨g, _, rfl⟩ := hq
        exact hn
      · exact hc p hmem
  | frame a f send_ok =>
      cases hl : lookupA a s.clients with
      | none => simp only [PerCategory.step, PerCategory.consumer, hl]; exact ⟨hn, hc⟩
      | some c =>
        by_cases hreg : s.filters_consumed.contains f.filter_passed = false
        · simp only [PerCategory.step, PerCategory.consumer, hl, hreg, if_true]
          exact ⟨hn, hc⟩
        · cases hlt : lookupA f.filter_passed c.tokens_for_filter with
          | none =>
              simp only [PerCategory.step, PerCategory.consumer, hl, hreg, if_false, hlt]
              exact ⟨hn, hc⟩
          | some t =>
            by_cases ht : t < 1
            · simp only [PerCategory.step, PerCategory.consumer, hl, hreg, if_false,
                hlt, ht, if_true]
              exact ⟨hn, hc⟩
            · by_cases hs : send_ok = false
              · simp only [PerCategory.step, PerCategory.consumer, hl, hreg, if_false,
                  hlt, ht, hs, if_true]
                exact ⟨hn, hc⟩
              · simp only [PerCategory.step, PerCategory.consumer, hl, hreg, if_false,
                  hlt, ht, hs]
                refine ⟨hn, ?_⟩
                intro p hp
                rcases mem_setA _ _ _ _ hp with rfl | hmem
                · intro q hq
                  rcases mem_setA _ _ _ _ hq with rfl | hq2
                  · simp only
                    omega
                  · exact hc (a, c) (lookupA_mem a s.clients c hl) q hq2
                · exact hc p hmem
  | produce fe =>
      cases hl : lookupA (fe.host, fe.port) s.clients with
      | none => simp only [PerCategory.step, PerCategory.producer, hl]; exact ⟨hn, hc⟩
      | some c =>
        cases hlt : lookupA fe.result_wrapper.filter_passed c.tokens_for_filter with
        | none =>
            simp only [PerCategory.step, PerCategory.producer, hl, hlt]
            exact ⟨hn, hc⟩
        | some t =>
            simp only [PerCategory.step, PerCategory.producer, hl, hlt]
            refine ⟨hn, ?_⟩
            intro p hp
            rcases mem_setA _ _ _ _ hp with rfl | hmem
            · intro q hq
              rcases mem_setA _ _ _ _ hq with rfl | hq2
              · have h0 : 0 ≤ t :=
                  hc ((fe.host, fe.port), c) (lookupA_mem _ s.clients c hl)
                    (fe.result_wrapper.filter_passed, t) (lookupA_mem _ _ t hlt)
                simp only
                omega
              · exact hc ((fe.host, fe.port), c) (lookupA_mem _ s.clients c hl) q hq2
            · exact hc p hmem
  | addFilter g =>
      by_cases hg : s.filters_consumed.contains g
      · simp only [PerCategory.step, PerCategory.add_filter_consumed, hg, if_true]
        exact ⟨hn, hc⟩
      · simp only [PerCategory.step, PerCategory.add_filter_consumed, hg, if_false]
        exact ⟨hn, hc⟩
  | removeFilter g =>
      by_cases hg : s.filters_consumed.contains g = false
      · simp only [PerCategory.step, PerCategory.remove_filter_consumed, hg, if_true]
        exact ⟨hn, hc⟩
      · simp only [PerCategory.step, PerCategory.remove_filter_consumed, hg, if_false]
        exact ⟨hn, hc⟩
  | disconnect a =>
      cases hl : lookupA a s.clients with
      | none =>
          simp only [PerCategory.step, PerCategory.handler_teardown, hl]
          exact ⟨hn, hc⟩
      | some c =>
          simp only [PerCategory.step, PerCategory.handler_teardown, hl]
          exact ⟨hn, fun p hp => hc p (mem_eraseA a s.clients p hp)⟩

/-- C1: for every client and every token counter, in both the simple model and
the per-category model, the counter is nonnegative in every reachable state
when the configured allotment is nonnegative; every decrement in the code sits
behind a positivity test, and a frame arriving while the relevant counter is
zero is answered with NO_TOKENS, is not queued, and is not forwarded. -/
theorem c1_counters_nonneg (m : Nat) (n : Int) (hn : 0 ≤ n) : claim1Prop m n := by
  refine ⟨?_, ?_, ?_, ?_⟩
  · intro s hs
    have hi : Simple.Inv s := by
      induction hs with
      | init =>
          refine ⟨hn, ?_⟩
          intro p hp
          simp [Simple.Server.init] at hp
      | next s2 e _ ih => exact simple_inv_preserved s2 e ih
    exact hi.2
  · intro pt mms s hs
    have hi : PerCategory.Inv s := by
      induction hs with
      | init =>
          refine ⟨hn, ?_⟩
          intro p hp
          simp [PerCategory.Server.init] at hp
      | next s2 e _ ih => exact percat_inv_preserved s2 e ih
    exact hi.2
  · intro s a c f hl h0
    constructor <;>
      simp [Simple.step, Simple.consumer_handler, hl, h0]
  · intro s a c f send_ok hl hreg hlt
    have hmem : f.filter_passed ∈ s.filters_consumed := by
      simpa using hreg
    refine ⟨?_, ?_, ?_⟩ <;>
      simp [PerCategory.step, PerCategory.consumer, hl, hmem, hlt,
        show (0 : Int) < 1 from by norm_num]

/-- Witness for C1 at the default allotment of two tokens. -/
theorem c1_witness : 0 ≤ (2 : Int) ∧ claim1Prop 2 2 :=
  ⟨by norm_num, c1_counters_nonneg 2 2 (by norm_num)⟩

/-- C2: when the submission to the engine transport fails, the relevant token
counter is unchanged from before the attempt and the client receives a
SERVER_DROPPED_FRAME reply (per-category model, where _send_to_engine returns
False) or a QUEUE_FULL reply (simple model, where put_nowait raises
queue.Full and the except clause restores the count). -/
theorem c2_failed_submission_no_decrement :
    (∀ (s : PerCategory.Server) (a : Address) (c : PerCategory.Client)
        (f : PerCategory.FromClient) (t : Int),
      lookupA a s.clients = some c →
      s.filters_consumed.contains f.filter_passed = true →
      lookupA f.filter_passed c.tokens_for_filter = some t →
      1 ≤ t →
      claim2PCConcl s a f) ∧
    (∀ (s : Simple.Server) (a : Address) (c : Simple.Client) (f : Simple.FromClient),
      Simple.isFull s.max_size s.input_queue = true →
      claim2SimpleConcl s a c f) := by
  constructor
  · intro s a c f t hl hreg hlt ht
    have hmem : f.filter_passed ∈ s.filters_consumed := by
      simpa using hreg
    have ht2 : ¬ (t < 1) := by omega
    refine ⟨?_, ?_, ?_⟩ <;>
      simp [claim2PCConcl, PerCategory.step, PerCategory.consumer, hl, hmem, hlt, ht2]
  · intro s a c f hfull
    refine ⟨?_, ?_, ?_⟩ <;>
      simp [claim2SimpleConcl, Simple.submitBlock, hfull, lookupA_setA_self,
        Int.sub_add_cancel]

/-- Witness for C2: a concrete failed transport send in the per-category model
and a concrete full input queue in the simple model. -/
theorem c2_witness :
    (lookupA aW pcServerW.clients = some pcClientW ∧
      pcServerW.filters_consumed.contains pcFrameW.filter_passed = true ∧
      lookupA pcFrameW.filter_passed pcClientW.tokens_for_filter = some 2 ∧
      (1 : Int) ≤ 2 ∧
      claim2PCConcl pcServerW aW pcFrameW) ∧
    (Simple.isFull sServerFullW.max_size sServerFullW.input_queue = true ∧
      claim2SimpleConcl sServerFullW aW sClientW sFrameW) := by
  have h := c2_failed_submission_no_decrement
  refine ⟨⟨by decide, by decide, by decide, by norm_num, ?_⟩, ⟨by decide, ?_⟩⟩
  · exact h.1 pcServerW aW pcClientW pcFrameW 2 (by decide) (by decide) (by decide)
      (by norm_num)
  · exact h.2 sServerFullW aW sClientW sFrameW (by decide)

/-- C3: the per-category dispatch duty drops a result addressed to an
unregistered identity with exactly one warning, no exception, and an
unchanged registry; but the simple variant of the same duty, queue_result,
raises AttributeError on such a result because self.clients.get(address) is
dereferenced before the None test, so there the dispatch duty does crash.
This closed theorem evaluates both at a result addressed to an identity that
is not registered while another client is. -/
theorem c3_unknown_address_dispatch :
    (Simple.queue_result sServerC3 contentC3 aW).error = some PyErr.attributeError ∧
    (Simple.queue_result sServerC3 contentC3 aW).state = sServerC3 ∧
    (Simple.queue_result sServerC3 contentC3 aW).warns = 0 ∧
    (PerCategory.step pcServerC3 (PerCategory.Event.produce feC3)).error = none ∧
    (PerCategory.step pcServerC3 (PerCategory.Event.produce feC3)).state = pcServerC3 ∧
    (PerCategory.step pcServerC3 (PerCategory.Event.produce feC3)).warns = 1 ∧
    (PerCategory.step pcServerC3 (PerCategory.Event.produce feC3)).outputs = [] := by
  decide

/-- Counterexample for C4: in the simple model a client with zero tokens that
sends a frame for an unregistered category receives NO_TOKENS, not the
REQUESTED_ENGINE_NOT_AVAILABLE reply the claim requires regardless of the
token count. -/
theorem c4_counterexample :
    (Simple.step sServerC4 (Simple.Event.frame aW ⟨"face", 7, 0⟩)).outputs
      = [Simple.Msg.errorReply 7 Status.noTokens 0] ∧
    (Simple.step sServerC4 (Simple.Event.frame aW ⟨"face", 7, 0⟩)).outputs
      ≠ [Simple.Msg.errorReply 7 Status.requestedEngineNotAvailable 0] := by
  decide

/-- C4 (amended): a frame for an unregistered category is answered with
NO_ENGINE_FOR_FILTER_PASSED, not forwarded, and consumes no token in the
per-category model regardless of the token count; in the simple model the
corresponding REQUESTED_ENGINE_NOT_AVAILABLE reply is sent, with nothing
forwarded and no token consumed, only when the client holds at least one
token (with zero tokens the NO_TOKENS reply takes precedence), and the
membership test consults the client registry, never succeeding, rather than
the set of available engines. -/
theorem c4_unregistered_category (s : PerCategory.Server) (a : Address)
    (c : PerCategory.Client) (f : PerCategory.FromClient) (send_ok : Bool)
    (s2 : Simple.Server) (a2 : Address) (c2 : Simple.Client) (f2 : Simple.FromClient)
    (hl : lookupA a s.clients = some c)
    (hreg : s.filters_consumed.contains f.filter_passed = false)
    (hl2 : lookupA a2 s2.clients = some c2)
    (_hreg2 : s2.available_engines.contains f2.engine_name = false)
    (ht2 : c2.tokens > 0) :
    claim4PCConcl s a f send_ok ∧ claim4SimpleConcl s2 a2 c2 f2 := by
  constructor
  · have hmem : f.filter_passed ∉ s.filters_consumed := by
      simpa using hreg
    refine ⟨?_, ?_, ?_⟩ <;>
      simp [claim4PCConcl, PerCategory.step, PerCategory.consumer, hl, hmem]
  · refine ⟨?_, ?_⟩ <;>
      simp [claim4SimpleConcl, Simple.step, Simple.consumer_handler, hl2, ht2,
        Simple.tryBlock, engineInClients_false]

/-- Witness for C4 at concrete states of both models. -/
theorem c4_witness :
    (lookupA aW pcServerW.clients = some pcClientW ∧
      pcServerW.filters_consumed.contains "pose" = false ∧
      lookupA aW sServerC4w.clients = some ⟨[], 2⟩ ∧
      sServerC4w.available_engines.contains "pose" = false ∧
      (2 : Int) > 0) ∧
    claim4PCConcl pcServerW aW ⟨"pose", 8, 0⟩ true ∧
    claim4SimpleConcl sServerC4w aW ⟨[], 2⟩ ⟨"pose", 8, 0⟩ := by
  have h := c4_unregistered_category pcServerW aW pcClientW ⟨"pose", 8, 0⟩ true
    sServerC4w aW ⟨[], 2⟩ ⟨"pose", 8, 0⟩ (by decide) (by decide) (by decide)
    (by decide) (by norm_num)
  exact ⟨⟨by decide, by decide, by decide, by decide, by norm_num⟩, h.1, h.2⟩

/-- C5 fails on the code: a fresh client with the default two tokens sending
three frames for the engine face, even with face in available_engines, has
every frame answered with REQUESTED_ENGINE_NOT_AVAILABLE, nothing submitted,
and the counter left at two, because line 78 tests the engine name against
self.clients, whose keys are address tuples, instead of available_engines;
the forwarding branch is unreachable. This closed theorem evaluates that
three-frame run. -/
theorem c5_three_frames_all_rejected :
    (Simple.run sServerC5
        [Simple.Event.connect aW,
         Simple.Event.frame aW ⟨"face", 1, 0⟩,
         Simple.Event.frame aW ⟨"face", 2, 0⟩,
         Simple.Event.frame aW ⟨"face", 3, 0⟩]).2
      = [Simple.Msg.errorReply 1 Status.requestedEngineNotAvailable 2,
         Simple.Msg.errorReply 2 Status.requestedEngineNotAvailable 2,
         Simple.Msg.errorReply 3 Status.requestedEngineNotAvailable 2] ∧
    lookupA aW (Simple.run sServerC5
        [Simple.Event.connect aW,
         Simple.Event.frame aW ⟨"face", 1, 0⟩,
         Simple.Event.frame aW ⟨"face", 2, 0⟩,
         Simple.Event.frame aW ⟨"face", 3, 0⟩]).1.clients
      = some ⟨[], 2⟩ ∧
    (Simple.run sServerC5
        [Simple.Event.connect aW,
         Simple.Event.frame aW ⟨"face", 1, 0⟩,
         Simple.Event.frame aW ⟨"face", 2, 0⟩,
         Simple.Event.frame aW ⟨"face", 3, 0⟩]).1.input_queue = [] := by
  decide

/-- Counterexample for C6: connecting at an address that already has a
registered session with five tokens raises nothing and replaces the session
with a fresh two-token one, so the connect operation neither fails with a
RegistrationError nor leaves the existing session unaffected. -/
theorem c6_counterexample :
    (Simple.step sServerC6 (Simple.Event.connect aW)).error = none ∧
    lookupA aW (Simple.step sServerC6 (Simple.Event.connect aW)).state.clients
      = some ⟨[], 2⟩ ∧
    lookupA aW (Simple.step sServerC6 (Simple.Event.connect aW)).state.clients
      ≠ some ⟨[], 5⟩ := by
  decide

/-- C6 (amended): no RegistrationError exists in either variant. In the
simple model the connect operation performs no duplicate check and raises no
error; the fresh session record unconditionally replaces any existing
registry entry at the same identity. In the per-category model every connect,
duplicate or not, fails with a TypeError raised at the session-record
construction on line 53, before the registry is read or written, so the
existing entry is left unchanged and nothing is sent. -/
theorem c6_connect_no_registration_error (s : Simple.Server) (a : Address)
    (s2 : PerCategory.Server) (a2 : Address) :
    (Simple.step s (Simple.Event.connect a)).error = none ∧
    lookupA a (Simple.step s (Simple.Event.connect a)).state.clients
      = some { result_queue := [], tokens := s.num_tokens } ∧
    (PerCategory.step s2 (PerCategory.Event.connect a2)).error
      = some PyErr.typeError ∧
    (PerCategory.step s2 (PerCategory.Event.connect a2)).state = s2 ∧
    (PerCategory.step s2 (PerCategory.Event.connect a2)).outputs = [] := by
  refine ⟨rfl, ?_, rfl, rfl, rfl⟩
  simp [Simple.step, Simple.handler_connect, lookupA_setA_self]

/-- C7 fails on the code: both add_filter_consumed and remove_filter_consumed
mutate the registration set and then raise NameError at the loop header
for client in clients, because the name clients is undefined, so no live
session ledger is ever granted or stripped a counter; afterwards the ledgers
no longer hold exactly one counter per registered category. This closed
theorem evaluates both mutations on a server with one client. -/
theorem c7_filter_mutation_name_error :
    (PerCategory.step pcServerC7 (PerCategory.Event.addFilter "pose")).error
      = some PyErr.nameError ∧
    (PerCategory.step pcServerC7 (PerCategory.Event.addFilter "pose")).state.filters_consumed
      = ["face", "pose"] ∧
    (PerCategory.step pcServerC7 (PerCategory.Event.addFilter "pose")).state.clients
      = pcServerC7.clients ∧
    (PerCategory.step pcServerC7 (PerCategory.Event.removeFilter "face")).error
      = some PyErr.nameError ∧
    (PerCategory.step pcServerC7 (PerCategory.Event.removeFilter "face")).state.filters_consumed
      = [] ∧
    (PerCategory.step pcServerC7 (PerCategory.Event.removeFilter "face")).state.clients
      = pcServerC7.clients := by
  decide

/-- Counterexample for C8: tearing the same identity down twice is not safe;
the second teardown raises KeyError instead of leaving the registry unchanged
without raising. -/
theorem c8_counterexample :
    (Simple.step (Simple.step sServerC8 (Simple.Event.disconnect aW)).state
        (Simple.Event.disconnect aW)).error = some PyErr.keyError := by
  decide

/-- C8 (amended): in both variants, teardown of a registered identity removes
its session entry exactly once without raising; but teardown is not
idempotent: performing it again for the same identity, or for an identity
that is absent, raises KeyError (leaving the registry unchanged). -/
theorem c8_teardown_once_then_keyerror (s : Simple.Server) (a : Address)
    (hnd : (s.clients.map Prod.fst).Nodup)
    (s2 : PerCategory.Server) (a2 : Address)
    (hnd2 : (s2.clients.map Prod.fst).Nodup) :
    (∀ c, lookupA a s.clients = some c → claim8SimpleRemoved s a) ∧
    (lookupA a s.clients = none → claim8SimpleMissing s a) ∧
    (∀ c2, lookupA a2 s2.clients = some c2 → claim8PCRemoved s2 a2) ∧
    (lookupA a2 s2.clients = none → claim8PCMissing s2 a2) := by
  refine ⟨?_, ?_, ?_, ?_⟩
  · intro c hl
    have hzero : lookupA a (eraseA a s.clients) = none :=
      lookupA_eraseA_self a s.clients hnd
    refine ⟨?_, ?_, ?_, ?_⟩ <;>
      simp [claim8SimpleRemoved, Simple.step, Simple.handler_teardown, hl, hzero]
  · intro hl
    refine ⟨?_, ?_⟩ <;>
      simp [claim8SimpleMissing, Simple.step, Simple.handler_teardown, hl]
  · intro c2 hl
    have hzero : lookupA a2 (eraseA a2 s2.clients) = none :=
      lookupA_eraseA_self a2 s2.clients hnd2
    refine ⟨?_, ?_, ?_, ?_⟩ <;>
      simp [claim8PCRemoved, PerCategory.step, PerCategory.handler_teardown, hl, hzero]
  · intro hl
    refine ⟨?_, ?_⟩ <;>
      simp [claim8PCMissing, PerCategory.step, PerCategory.handler_teardown, hl]

/-- Witness for C8 at concrete one-client states of both models. -/
theorem c8_witness :
    ((sServerC8.clients.map Prod.fst).Nodup ∧
      (pcServerC8.clients.map Prod.fst).Nodup ∧
      lookupA aW sServerC8.clients = some ⟨[], 2⟩ ∧
      lookupA bW pcServerC8.clients = some ⟨[("face", 2)]⟩) ∧
    claim8SimpleRemoved sServerC8 aW ∧ claim8PCRemoved pcServerC8 bW := by
  have h := c8_teardown_once_then_keyerror sServerC8 aW (by decide) pcServerC8 bW
    (by decide)
  exact ⟨⟨by decide, by decide, by decide, by decide⟩,
    h.1 ⟨[], 2⟩ (by decide), h.2.2.1 ⟨[("face", 2)]⟩ (by decide)⟩

/-- C9 fails on the code: the welcome send at lines 59 to 65 of _handler is
never reached, because the session-record construction at line 53 raises
TypeError first, so no welcome message is ever sent to any client; the
comment above line 60 and the welcome-building code show the claim is the
intent and line 53 a slip. This theorem evaluates the connect step of the
per-category server at every state and address: it raises TypeError, emits
no output, and leaves the state unchanged, while the registration block that
the handler would run, register_client, is the step that would produce
exactly the welcome the claim describes. -/
theorem c9_connect_type_error_no_welcome (s : PerCategory.Server) (a : Address) :
    (PerCategory.step s (PerCategory.Event.connect a)).error = some PyErr.typeError ∧
    (PerCategory.step s (PerCategory.Event.connect a)).outputs = [] ∧
    (PerCategory.step s (PerCategory.Event.connect a)).state = s ∧
    (PerCategory.step s (PerCategory.Event.register a)).outputs
      = [PerCategory.Msg.welcome s.filters_consumed s.num_tokens_per_filter] :=
  ⟨rfl, rfl, rfl, rfl⟩

/-- C10: the per-category dispatch duty credits the refund to the counter
named by the filter of the result without checking that the ledger of the
looked-up client has that key; when the key is present the refund increments
exactly that counter by one and leaves every other counter and client
unchanged, and when it is absent the ledger update raises KeyError rather
than the result being discarded. -/
theorem c10_refund_requires_ledger_key (s : PerCategory.Server)
    (fe : PerCategory.FromEngine) (c : PerCategory.Client)
    (hc : lookupA (fe.host, fe.port) s.clients = some c) :
    (∀ t, lookupA fe.result_wrapper.filter_passed c.tokens_for_filter = some t →
      claim10OkConcl s fe c t) ∧
    (lookupA fe.result_wrapper.filter_passed c.tokens_for_filter = none →
      claim10MissingConcl s fe) := by
  constructor
  · intro t hlt
    refine ⟨?_, ?_, ?_, ?_⟩
    · simp [claim10OkConcl, PerCategory.step, PerCategory.producer, hc, hlt]
    · refine ⟨⟨setA fe.result_wrapper.filter_passed (t + 1) c.tokens_for_filter⟩,
        ?_, ?_, ?_⟩
      · simp [PerCategory.step, PerCategory.producer, hc, hlt, lookupA_setA_self]
      · simp [lookupA_setA_self]
      · intro g hg
        exact lookupA_setA_ne fe.result_wrapper.filter_passed g (t + 1) hg
          c.tokens_for_filter
    · intro a2 ha2
      simp only [PerCategory.step, PerCategory.producer, hc, hlt]
      exact lookupA_setA_ne (fe.host, fe.port) a2 _ ha2 s.clients
    · simp [PerCategory.step, PerCategory.producer, hc, hlt]
  · intro hlt
    refine ⟨?_, ?_, ?_, ?_⟩ <;>
      simp [claim10MissingConcl, PerCategory.step, PerCategory.producer, hc, hlt]

/-- Witness for C10: a concrete refund for a filter present in the ledger. -/
theorem c10_witness :
    lookupA (feW.host, feW.port) pcServerW.clients = some pcClientW ∧
    lookupA feW.result_wrapper.filter_passed pcClientW.tokens_for_filter = some 2 ∧
    claim10OkConcl pcServerW feW pcClientW 2 := by
  have h := c10_refund_requires_ledger_key pcServerW feW pcClientW (by decide)
  exact ⟨by decide, by decide, h.1 2 (by decide)⟩

end Gabriel
